import Mathlib

/-!
Verification of the S0 smartmeter core of the avr-net-io-smartmeter firmware.

The Lean definitions below are a shallow embedding of `src/S0Smartmeter.hpp`
(classes `S0Pin` and `S0Smartmeter`) and of the pin-change interrupt
dispatcher `ISR(PCINT0_vect)` in `src/main.cpp`.  Machine integers
(`uint8_t`, `uint32_t`, AVR `unsigned long`) are modelled as `Nat` with
explicit reduction modulo `2^8` / `2^32` wherever the C++ arithmetic wraps;
a division whose C++ divisor can be zero (undefined behaviour) is modelled
by returning `none`.  Hardware registers (`PCMSK0`, `PINA`) and the clock
(`millis()`) are passed explicitly as values.
-/

namespace AvrSmartmeter

/-- The constant 2^32, the modulus of `uint32_t` / AVR `unsigned long` arithmetic. -/
def U32 : Nat := 4294967296

/-- The constant 2^8, the modulus of `uint8_t` arithmetic. -/
def U8 : Nat := 256

/-- Unsigned 32-bit subtraction `a - b` with two's-complement wraparound. -/
def u32sub (a b : Nat) : Nat := (a + U32 - b % U32) % U32

/-- Unsigned 8-bit subtraction `a - b` with two's-complement wraparound. -/
def u8sub (a b : Nat) : Nat := (a + U8 - b % U8) % U8

/-- A `pinMode(pin, mode)` hardware-configuration call, recorded as an effect. -/
structure PinModeEvent where
  pin : Nat
  mode : Nat
deriving Repr, DecidableEq

/-- The Arduino AVR core's `INPUT_PULLUP` pin-mode constant. -/
def INPUT_PULLUP : Nat := 2

/-- Constant `S0Pin::mcPinRangeMin`: lowest Arduino pin number of port A. -/
def mcPinRangeMin : Nat := 24

/-- Constant `S0Pin::mcPinRangeMax`: highest Arduino pin number of port A. -/
def mcPinRangeMax : Nat := 31

/-- Class `S0Pin` (S0Smartmeter.hpp): holds the Arduino pin number `m_pinNo`.
The C++ constructor leaves `m_pinNo` uninitialized. -/
structure S0Pin where
  m_pinNo : Nat
deriving Repr, DecidableEq

/-- Method `S0Pin::init(pinNumber)`: if the pin is a port A pin (24..31), record it,
configure it via `pinMode(m_pinNo, INPUT_PULLUP)` and return true; otherwise
leave the pin untouched and return false.  The emitted `pinMode` calls are
returned as an event list. -/
def S0Pin.init (p : S0Pin) (pinNumber : Nat) : S0Pin × List PinModeEvent × Bool :=
  if mcPinRangeMin ≤ pinNumber ∧ pinNumber ≤ mcPinRangeMax then
    ({ m_pinNo := pinNumber }, [⟨pinNumber, INPUT_PULLUP⟩], true)
  else
    (p, [], false)

/-- Method `S0Pin::enable()`: `PCMSK0 |= _BV(m_pinNo - mcPinRangeMin)`.  Takes the
current `PCMSK0` (a `uint8_t`) and returns its new value. -/
def S0Pin.enable (p : S0Pin) (pcmsk0 : Nat) : Nat :=
  (pcmsk0 ||| (1 <<< u8sub p.m_pinNo mcPinRangeMin)) % U8

/-- Method `S0Pin::disable()`: `PCMSK0 &= ~_BV(m_pinNo - mcPinRangeMin)`. -/
def S0Pin.disable (p : S0Pin) (pcmsk0 : Nat) : Nat :=
  pcmsk0 &&& ((U8 - 1) ^^^ ((1 <<< u8sub p.m_pinNo mcPinRangeMin) % U8))

/-- Method `S0Pin::getPortBitNo()`: `m_pinNo - mcPinRangeMin` in `uint8_t` arithmetic. -/
def S0Pin.getPortBitNo (p : S0Pin) : Nat := u8sub p.m_pinNo mcPinRangeMin

/-- Constant `S0Smartmeter::PULSES_PER_KWH_RANGE_MIN`. -/
def PULSES_PER_KWH_RANGE_MIN : Nat := 1

/-- Constant `S0Smartmeter::PULSES_PER_KWH_RANGE_MAX`. -/
def PULSES_PER_KWH_RANGE_MAX : Nat := 6000

/-- Class `S0Smartmeter`: one S0 channel's configuration and runtime state,
field for field as in S0Smartmeter.hpp. -/
structure S0Smartmeter where
  m_id : Nat
  m_isEnabled : Bool
  m_name : String
  m_pulsesPerKWH : Nat
  m_energyPerPulse : Nat
  m_s0Pin : S0Pin
  m_pulseCnt : Nat
  m_timestamp : Nat
  m_isFirstPulse : Bool
  m_powerConsumption : Nat
  m_lastTimeDiff : Nat
  m_decPowerDuration : Nat
deriving Repr, DecidableEq

/-- The `S0Smartmeter()` constructor.  `m_decPowerDuration` is absent from the
initializer list and `S0Pin`'s constructor leaves `m_pinNo` uninitialized, so
both indeterminate values are parameters. -/
def S0Smartmeter.construct (pinNo0 decPowerDuration0 : Nat) : S0Smartmeter where
  m_id := 255
  m_isEnabled := false
  m_name := ""
  m_pulsesPerKWH := 1000
  m_energyPerPulse := 0
  m_s0Pin := ⟨pinNo0⟩
  m_pulseCnt := 0
  m_timestamp := 0
  m_isFirstPulse := true
  m_powerConsumption := 0
  m_lastTimeDiff := 0
  m_decPowerDuration := decPowerDuration0

/-- Method `S0Smartmeter::init(id, name, pinS0, pulsesPerKWH)`.  The call to
`m_s0Pin.init(pinS0)` is evaluated first (C++ `&&` short-circuits left to
right), so the pin member is mutated even when the calibration check then
fails.  Returns the new state, the emitted `pinMode` events and the status. -/
def S0Smartmeter.init (s : S0Smartmeter) (id : Nat) (name : String)
    (pinS0 pulsesPerKWH : Nat) : S0Smartmeter × List PinModeEvent × Bool :=
  let pinSt := s.m_s0Pin.init pinS0
  let s1 := { s with m_s0Pin := pinSt.1 }
  if pinSt.2.2 = true ∧ PULSES_PER_KWH_RANGE_MIN ≤ pulsesPerKWH ∧
      pulsesPerKWH ≤ PULSES_PER_KWH_RANGE_MAX then
    ({ s1 with
        m_id := id
        m_name := name
        m_pulsesPerKWH := pulsesPerKWH
        m_energyPerPulse := 60 * 60 * 1000 / pulsesPerKWH }, pinSt.2.1, true)
  else
    (s1, pinSt.2.1, false)

/-- Method `S0Smartmeter::enable()`: enables the pin's mask bit and sets
`m_isEnabled`.  Returns the new state and the new `PCMSK0` value. -/
def S0Smartmeter.enable (s : S0Smartmeter) (pcmsk0 : Nat) : S0Smartmeter × Nat :=
  ({ s with m_isEnabled := true }, s.m_s0Pin.enable pcmsk0)

/-- Method `S0Smartmeter::disable()`: clears the pin's mask bit and clears
`m_isEnabled`.  Returns the new state and the new `PCMSK0` value. -/
def S0Smartmeter.disable (s : S0Smartmeter) (pcmsk0 : Nat) : S0Smartmeter × Nat :=
  ({ s with m_isEnabled := false }, s.m_s0Pin.disable pcmsk0)

/-- Method `S0Smartmeter::isEnabled()`. -/
def S0Smartmeter.isEnabled (s : S0Smartmeter) : Bool := s.m_isEnabled

/-- Method `S0Smartmeter::internalISR()`, with `now` the value of `millis()`.
Statement order follows the source: the pulse counter is incremented and
`m_timestamp` is assigned the current time *before* the power-calculation
branch, so inside that branch `timestamp - m_timestamp` subtracts the just
stored value from itself.  The division by `m_lastTimeDiff` is undefined
behaviour when that divisor is zero, modelled as `none`. -/
def S0Smartmeter.internalISR (s : S0Smartmeter) (now : Nat) : Option S0Smartmeter :=
  let timestamp := now
  let s1 := { s with m_pulseCnt := (s.m_pulseCnt + 1) % U32 }
  let s2 := { s1 with m_timestamp := timestamp }
  if s2.m_isFirstPulse = false then
    let lastTimeDiff := u32sub timestamp s2.m_timestamp
    let decPowerDuration := (2 * lastTimeDiff) % U32
    if lastTimeDiff = 0 then
      none
    else
      some { s2 with
        m_lastTimeDiff := lastTimeDiff
        m_decPowerDuration := decPowerDuration
        m_powerConsumption := ((s2.m_energyPerPulse * 1000) % U32) / lastTimeDiff }
  else
    some s2

/-- Method `S0Smartmeter::getResult(powerConsumption, energyConsumption, pulseCnt)`:
returns the three out-parameters `(power, energy, pulseCnt)` together with
the post-call object state.  The function assigns no member, so the state is
returned unchanged. -/
def S0Smartmeter.getResult (s : S0Smartmeter) : (Nat × Nat × Nat) × S0Smartmeter :=
  let powerConsumption := s.m_powerConsumption
  let pulseCnt := s.m_pulseCnt
  let energyConsumption := (pulseCnt * s.m_energyPerPulse) % U32
  ((powerConsumption, energyConsumption, pulseCnt), s)

/-- Method `S0Smartmeter::process()`, with `now` the value of `millis()`.  The
division by `m_decPowerDuration` is undefined behaviour when that divisor is
zero, modelled as `none`. -/
def S0Smartmeter.process (s : S0Smartmeter) (now : Nat) : Option S0Smartmeter :=
  if s.m_isEnabled = true ∧ s.m_isFirstPulse = false then
    if 0 < s.m_powerConsumption then
      let timeTillLastPulse := u32sub now s.m_timestamp
      if s.m_decPowerDuration ≤ timeTillLastPulse then
        if s.m_decPowerDuration = 0 then
          none
        else
          let delta := ((s.m_energyPerPulse * 1000) % U32) / s.m_decPowerDuration
          if 1 ≥ delta then
            some { s with
              m_powerConsumption := 0
              m_decPowerDuration := (s.m_decPowerDuration * 2) % U32 }
          else if delta ≥ s.m_powerConsumption then
            some { s with
              m_powerConsumption := 0
              m_decPowerDuration := (s.m_decPowerDuration * 2) % U32 }
          else
            some { s with
              m_powerConsumption := s.m_powerConsumption - delta
              m_decPowerDuration := (s.m_decPowerDuration * 2) % U32 }
      else
        some s
    else
      some s
  else
    some s

/-- A sequence of `internalISR` calls at the given `millis()` values. -/
def pulseSeq : S0Smartmeter → List Nat → Option S0Smartmeter
  | s, [] => some s
  | s, now :: rest =>
    match s.internalISR now with
    | none => none
    | some s' => pulseSeq s' rest

/-- Whether a `process` call at time `now` reaches the power-decreasing
branch (the channel is enabled, past the first pulse, has positive power
and the decay deadline has passed). -/
def fires (s : S0Smartmeter) (now : Nat) : Prop :=
  s.m_isEnabled = true ∧ s.m_isFirstPulse = false ∧
    0 < s.m_powerConsumption ∧
    s.m_decPowerDuration ≤ u32sub now s.m_timestamp

instance (s : S0Smartmeter) (now : Nat) : Decidable (fires s now) := by
  unfold fires
  infer_instance

/-- A sequence of `process` calls at the given `millis()` values, returning
the final state and the number of calls that took the decreasing branch. -/
def runCount : S0Smartmeter → List Nat → Option (S0Smartmeter × Nat)
  | s, [] => some (s, 0)
  | s, now :: rest =>
    match s.process now with
    | none => none
    | some s' =>
      match runCount s' rest with
      | none => none
      | some (s'', k) => some (s'', (if fires s now then 1 else 0) + k)

/-- The initial value of the dispatcher's `static uint8_t lastValue = 0xff;`
in `ISR(PCINT0_vect)` (main.cpp). -/
def initialLastValue : Nat := 0xff

/-- The condition under which `ISR(PCINT0_vect)` forwards a pulse to channel
`c`: the channel is enabled and its port bit shows a falling (1 to 0) edge
between `lastValue` and `value`:
`(0 != (lastValue & _BV(bitNo))) && (0 == (value & _BV(bitNo)))`. -/
def receivesPulse (lastValue value : Nat) (c : S0Smartmeter) : Prop :=
  c.isEnabled = true ∧
    lastValue &&& (1 <<< c.m_s0Pin.getPortBitNo) ≠ 0 ∧
    value &&& (1 <<< c.m_s0Pin.getPortBitNo) = 0

instance (lastValue value : Nat) (c : S0Smartmeter) :
    Decidable (receivesPulse lastValue value c) := by
  unfold receivesPulse; infer_instance

/-- The per-channel body of the loop in `ISR(PCINT0_vect)` (main.cpp):
an enabled channel whose port bit shows a falling edge between `lastValue`
and the freshly read `PINA` value receives `internalISR()`. -/
def dispatchOne (now lastValue value : Nat) (c : S0Smartmeter) : Option S0Smartmeter :=
  if receivesPulse lastValue value c then c.internalISR now else some c

/-- The loop of `ISR(PCINT0_vect)` over all channel slots. -/
def dispatchChannels (now lastValue value : Nat) : List S0Smartmeter → Option (List S0Smartmeter)
  | [] => some []
  | c :: cs =>
    match dispatchOne now lastValue value c with
    | none => none
    | some c' =>
      match dispatchChannels now lastValue value cs with
      | none => none
      | some cs' => some (c' :: cs')

/-- The interrupt handler `ISR(PCINT0_vect)` (main.cpp): reads `value = PINA` once, dispatches each
enabled channel with a falling edge, and finally stores `lastValue = value`.
The port pattern `value` and the previous pattern `lastValue` are inputs; the
result is the updated channel array and the new `lastValue`. -/
def ISR_PCINT0 (now lastValue value : Nat) (cs : List S0Smartmeter) :
    Option (List S0Smartmeter × Nat) :=
  match dispatchChannels now lastValue value cs with
  | none => none
  | some cs' => some (cs', value)

/-! ## Concrete states used by the claim theorems -/

/-- A channel initialized and enabled along the firmware's start-up path:
constructed, `init(0, "", 24, 1000)` (so `m_energyPerPulse = 3600`), then
enabled. -/
def c1Meter : S0Smartmeter :=
  (((S0Smartmeter.construct 24 0).init 0 "" 24 1000).1.enable 0).1

/-- A channel state holding two counted pulses with `m_energyPerPulse = 3600`. -/
def c2Meter : S0Smartmeter :=
  { S0Smartmeter.construct 24 0 with m_pulseCnt := 2, m_energyPerPulse := 3600 }

/-- A channel state past its first pulse with a positive power estimate. -/
def c4Meter : S0Smartmeter :=
  { S0Smartmeter.construct 24 0 with
      m_isEnabled := true
      m_isFirstPulse := false
      m_powerConsumption := 5
      m_energyPerPulse := 3600 }

/-- A decaying channel on which one firing `process` call drives the power
estimate (5 W) straight to 0. -/
def c7Meter : S0Smartmeter :=
  { S0Smartmeter.construct 24 0 with
      m_isEnabled := true
      m_isFirstPulse := false
      m_powerConsumption := 5
      m_energyPerPulse := 3600
      m_decPowerDuration := 1000
      m_timestamp := 0 }

/-- The state of `c7Meter` after the decay at time 100000 ms. -/
def c7After : S0Smartmeter :=
  { c7Meter with m_powerConsumption := 0, m_decPowerDuration := 2000 }

/-- A channel state with positive power but a zero decay interval — exactly
the interval `internalISR` itself stores, since it always computes a zero
time difference. -/
def c7zMeter : S0Smartmeter :=
  { S0Smartmeter.construct 24 0 with
      m_isEnabled := true
      m_isFirstPulse := false
      m_powerConsumption := 1
      m_energyPerPulse := 3600
      m_decPowerDuration := 0
      m_timestamp := 0 }

/-- The first dispatcher test channel: `c1Meter` (enabled, pin 24). -/
def c5A : S0Smartmeter := c1Meter

/-- The second dispatcher test channel: constructed but never enabled. -/
def c5B : S0Smartmeter := S0Smartmeter.construct 25 0

/-- The channel array after dispatching `[c5A, c5B]` with `lastValue = 1`,
`value = 0` at time 5: only the enabled falling-edge channel is updated. -/
def c5Out : List S0Smartmeter :=
  [{ c5A with m_pulseCnt := 1, m_timestamp := 5 }, c5B]

/-- The channel array after the very first dispatcher invocation on
`[c1Meter]` with all port bits reading 0 at time 9. -/
def c10Out : List S0Smartmeter :=
  [{ c1Meter with m_pulseCnt := 1, m_timestamp := 9 }]

/-- A decaying channel state in which `delta` evaluates to 1 while the power
estimate is 5: `energyPerPulse = 600`, `decPowerDuration = 600000 ms`. -/
def c3Meter : S0Smartmeter :=
  { S0Smartmeter.construct 24 0 with
      m_isEnabled := true
      m_isFirstPulse := false
      m_powerConsumption := 5
      m_energyPerPulse := 600
      m_decPowerDuration := 600000
      m_timestamp := 0 }

/-! ## Claim theorems -/

/-- Claim C1: the claim says that past the first pulse each `internalISR` computes
the interval to the *previous* pulse and sets the power estimate to
`energyPerPulse * 1000 / interval`, so two pulses 3600 ms apart with
`energyPerPulse = 3600` must yield a power estimate of 1000 W.  Evaluating
the code at that input: after two pulses at 1000 ms and 4600 ms the pulse
count is 2 as claimed, but the power estimate is still 0, not 1000, because
`m_isFirstPulse` is never cleared anywhere in the code; and in any state
with `m_isFirstPulse == false` the update overwrites `m_timestamp` before
taking the difference, so the computed interval is 0 and the power division
divides by zero (`none`). -/
theorem spec_c1_fixed_interval_pulses_leave_power_zero :
    (pulseSeq c1Meter [1000, 4600]).map S0Smartmeter.m_powerConsumption = some 0 ∧
    (pulseSeq c1Meter [1000, 4600]).map S0Smartmeter.m_pulseCnt = some 2 ∧
    c1Meter.m_energyPerPulse * 1000 / 3600 = 1000 ∧
    (0 : Nat) ≠ 1000 ∧
    S0Smartmeter.internalISR { c1Meter with m_isFirstPulse := false } 4600 = none :=
  ⟨rfl, rfl, rfl, by decide, rfl⟩

/-- Claim C2 counterexample: `getResult` resets nothing, so with two accumulated
pulses the *second* of two back-to-back snapshots still reports
`pulseCnt = 2` and `energyConsumption = 7200`, not 0 as the claim states. -/
theorem spec_c2_second_snapshot_not_zero :
    (c2Meter.getResult).2.m_pulseCnt = 2 ∧
    ((c2Meter.getResult).2.getResult).1.2.2 = 2 ∧
    ((c2Meter.getResult).2.getResult).1.2.1 = 7200 ∧
    (2 : Nat) ≠ 0 ∧ (7200 : Nat) ≠ 0 :=
  ⟨rfl, rfl, rfl, by decide, by decide⟩

/-- Claim C2 as amended: `getResult` returns the current power estimate,
`energyConsumed = pulseCount * energyPerPulse` (mod `2^32`) and the pulse
count, and leaves the whole channel state unchanged — in particular the
pulse count is *not* reset, so two successive snapshots with no intervening
pulse return identical values. -/
theorem spec_c2_snapshot_reads_without_reset (s : S0Smartmeter) :
    s.getResult.1 =
      (s.m_powerConsumption, (s.m_pulseCnt * s.m_energyPerPulse) % U32, s.m_pulseCnt) ∧
    s.getResult.2 = s ∧
    (s.getResult.2.getResult).1 = s.getResult.1 :=
  ⟨rfl, rfl, rfl⟩

/-- Claim C4 counterexample: in a state past the first pulse (where the computed
inter-pulse interval is necessarily zero, because `m_timestamp` is
overwritten before the difference is taken) the update is *not* treated as
a degenerate edge with the power estimate retained: there is no
`interval <= 0` guard, and the power calculation divides by zero (`none`). -/
theorem spec_c4_zero_interval_divides_by_zero :
    c4Meter.m_isFirstPulse = false ∧
    c4Meter.m_powerConsumption = 5 ∧
    c4Meter.internalISR 7 = none :=
  ⟨rfl, rfl, rfl⟩

/-- Claim C4 as amended: the code has no `interval <= 0` guard; the division is
avoided only because `m_isFirstPulse` is never cleared, so every update
reachable from the constructed state takes the first-pulse path: it
increments the pulse count, records the timestamp, leaves the power
estimate unchanged and performs no division. -/
theorem spec_c4_first_pulse_path_skips_division (s : S0Smartmeter) (now : Nat)
    (h : s.m_isFirstPulse = true) :
    ∃ s', s.internalISR now = some s' ∧
      s'.m_powerConsumption = s.m_powerConsumption ∧
      s'.m_isFirstPulse = true ∧
      s'.m_pulseCnt = (s.m_pulseCnt + 1) % U32 ∧
      s'.m_timestamp = now := by
  refine ⟨{ s with m_pulseCnt := (s.m_pulseCnt + 1) % U32, m_timestamp := now },
    ?_, rfl, h, rfl, rfl⟩
  simp [S0Smartmeter.internalISR, h]

/-- Witness for C4: the amended theorem applied to the freshly constructed
channel state at time 7. -/
theorem spec_c4_witness :
    (S0Smartmeter.construct 24 0).m_isFirstPulse = true ∧
    (∃ s', (S0Smartmeter.construct 24 0).internalISR 7 = some s' ∧
      s'.m_powerConsumption = (S0Smartmeter.construct 24 0).m_powerConsumption ∧
      s'.m_isFirstPulse = true ∧
      s'.m_pulseCnt = ((S0Smartmeter.construct 24 0).m_pulseCnt + 1) % U32 ∧
      s'.m_timestamp = 7) :=
  ⟨rfl, spec_c4_first_pulse_path_skips_division _ 7 rfl⟩

/-- Claim C3 counterexample: with `delta = 1` and a power estimate of 5, `delta`
neither drives the estimate to 0 or below (5 - 1 = 4) nor satisfies
`delta >= powerEstimate`, yet the code snaps the estimate to 0 (branch
`1 >= delta`), contradicting the claim's "exactly when". -/
theorem spec_c3_delta_one_snaps_to_zero :
    ((c3Meter.m_energyPerPulse * 1000) % U32) / c3Meter.m_decPowerDuration = 1 ∧
    (1 : Nat) < c3Meter.m_powerConsumption ∧
    c3Meter.m_powerConsumption - 1 = 4 ∧
    (c3Meter.process 600000).map S0Smartmeter.m_powerConsumption = some 0 ∧
    (0 : Nat) ≠ 4 :=
  ⟨rfl, by decide, rfl, rfl, by decide⟩

/-- Claim C3 as amended: for every enabled state past the first pulse with the
decay deadline passed, a positive power estimate and a nonzero decay
interval, one `process` call computes
`delta = energyPerPulse * 1000 / decPowerDuration` and sets the power
estimate to 0 when `delta <= 1` *or* `delta >= powerEstimate`, otherwise
subtracts `delta`; in every case the decay interval doubles (mod `2^32`)
and no other field changes. -/
theorem spec_c3_decay_step (s : S0Smartmeter) (now : Nat)
    (hen : s.m_isEnabled = true) (hfp : s.m_isFirstPulse = false)
    (hpow : 0 < s.m_powerConsumption)
    (hdl : s.m_decPowerDuration ≤ u32sub now s.m_timestamp)
    (hdur : ¬ s.m_decPowerDuration = 0) :
    ∃ s', s.process now = some s' ∧
      s'.m_powerConsumption =
        (if 1 ≥ ((s.m_energyPerPulse * 1000) % U32) / s.m_decPowerDuration then 0
         else if ((s.m_energyPerPulse * 1000) % U32) / s.m_decPowerDuration ≥
             s.m_powerConsumption then 0
         else s.m_powerConsumption -
           ((s.m_energyPerPulse * 1000) % U32) / s.m_decPowerDuration) ∧
      s'.m_decPowerDuration = (s.m_decPowerDuration * 2) % U32 ∧
      s'.m_pulseCnt = s.m_pulseCnt ∧
      s'.m_timestamp = s.m_timestamp ∧
      s'.m_isFirstPulse = s.m_isFirstPulse ∧
      s'.m_isEnabled = s.m_isEnabled ∧
      s'.m_energyPerPulse = s.m_energyPerPulse ∧
      s'.m_lastTimeDiff = s.m_lastTimeDiff ∧
      s'.m_id = s.m_id ∧
      s'.m_name = s.m_name ∧
      s'.m_pulsesPerKWH = s.m_pulsesPerKWH ∧
      s'.m_s0Pin = s.m_s0Pin := by
  by_cases h1 : 1 ≥ ((s.m_energyPerPulse * 1000) % U32) / s.m_decPowerDuration
  · refine ⟨{ s with m_powerConsumption := 0, m_decPowerDuration := (s.m_decPowerDuration * 2) % U32 }, ?_, ?_, rfl, rfl, rfl, rfl, rfl, rfl, rfl, rfl, rfl, rfl, rfl⟩
    · simp [S0Smartmeter.process, hen, hfp, hpow, hdl, hdur, h1]
    · simp [h1]
  · by_cases h2 : ((s.m_energyPerPulse * 1000) % U32) / s.m_decPowerDuration ≥ s.m_powerConsumption
    · refine ⟨{ s with m_powerConsumption := 0, m_decPowerDuration := (s.m_decPowerDuration * 2) % U32 }, ?_, ?_, rfl, rfl, rfl, rfl, rfl, rfl, rfl, rfl, rfl, rfl, rfl⟩
      · simp [S0Smartmeter.process, hen, hfp, hpow, hdl, hdur, h1, h2]
      · simp [h1, h2]
    · refine ⟨{ s with m_powerConsumption := s.m_powerConsumption - ((s.m_energyPerPulse * 1000) % U32) / s.m_decPowerDuration, m_decPowerDuration := (s.m_decPowerDuration * 2) % U32 }, ?_, ?_, rfl, rfl, rfl, rfl, rfl, rfl, rfl, rfl, rfl, rfl, rfl⟩
      · simp [S0Smartmeter.process, hen, hfp, hpow, hdl, hdur, h1, h2]
      · simp [h1, h2]

/-- Witness for C3: the amended decay-step theorem applied to `c3Meter` at
time 600000 ms. -/
theorem spec_c3_witness :
    ∃ s', c3Meter.process 600000 = some s' ∧
      s'.m_powerConsumption = 0 ∧ s'.m_decPowerDuration = 1200000 := by
  obtain ⟨s', hproc, hpow, hdur, -⟩ :=
    spec_c3_decay_step c3Meter 600000 rfl rfl (by decide) (by decide) (by decide)
  exact ⟨s', hproc, by rw [hpow]; decide, by rw [hdur]; decide⟩

/-- Claim C6: `init(id, name, pin, pulsesPerKWH)` returns true iff the pin is in
the edge-capable range 24..31 and the calibration is in 1..6000; on success
`energyPerPulse = 3600000 / pulsesPerKWH` (so calibration 1000 gives 3600);
on failure the enabled flag and the estimator configuration (id, name,
calibration, energy per pulse) are unchanged. -/
theorem spec_c6_init_validation (s : S0Smartmeter) (id : Nat) (name : String)
    (pinS0 ppk : Nat) :
    ((s.init id name pinS0 ppk).2.2 = true ↔
      (mcPinRangeMin ≤ pinS0 ∧ pinS0 ≤ mcPinRangeMax ∧
        PULSES_PER_KWH_RANGE_MIN ≤ ppk ∧ ppk ≤ PULSES_PER_KWH_RANGE_MAX)) ∧
    ((s.init id name pinS0 ppk).2.2 = true →
      (s.init id name pinS0 ppk).1.m_energyPerPulse = 3600000 / ppk) ∧
    ((s.init id name pinS0 ppk).2.2 = true ∧ ppk = 1000 →
      (s.init id name pinS0 ppk).1.m_energyPerPulse = 3600) ∧
    ((s.init id name pinS0 ppk).2.2 = false →
      (s.init id name pinS0 ppk).1.m_isEnabled = s.m_isEnabled ∧
      (s.init id name pinS0 ppk).1.m_id = s.m_id ∧
      (s.init id name pinS0 ppk).1.m_name = s.m_name ∧
      (s.init id name pinS0 ppk).1.m_pulsesPerKWH = s.m_pulsesPerKWH ∧
      (s.init id name pinS0 ppk).1.m_energyPerPulse = s.m_energyPerPulse) := by
  by_cases hpin : mcPinRangeMin ≤ pinS0 ∧ pinS0 ≤ mcPinRangeMax
  · by_cases hppk : PULSES_PER_KWH_RANGE_MIN ≤ ppk ∧ ppk ≤ PULSES_PER_KWH_RANGE_MAX
    · refine ⟨?_, ?_, ?_, ?_⟩
      · simp [S0Smartmeter.init, S0Pin.init, hpin, hppk]
      · intro _
        simp [S0Smartmeter.init, S0Pin.init, hpin, hppk]
      · rintro ⟨-, rfl⟩
        simp [S0Smartmeter.init, S0Pin.init, hpin, hppk]
      · intro hfail
        exact absurd hfail (by simp [S0Smartmeter.init, S0Pin.init, hpin, hppk])
    · refine ⟨?_, ?_, ?_, ?_⟩
      · simp only [S0Smartmeter.init, S0Pin.init, hpin]
        simp [hppk]
      · intro htrue
        exact absurd htrue (by simp [S0Smartmeter.init, S0Pin.init, hpin, hppk])
      · rintro ⟨htrue, -⟩
        exact absurd htrue (by simp [S0Smartmeter.init, S0Pin.init, hpin, hppk])
      · intro _
        refine ⟨?_, ?_, ?_, ?_, ?_⟩ <;>
          simp [S0Smartmeter.init, S0Pin.init, hpin, hppk]
  · refine ⟨?_, ?_, ?_, ?_⟩
    · simp only [S0Smartmeter.init, S0Pin.init, hpin]
      simp
      intro h1 h2 _
      exact absurd ⟨h1, h2⟩ hpin
    · intro htrue
      exact absurd htrue (by simp [S0Smartmeter.init, S0Pin.init, hpin])
    · rintro ⟨htrue, -⟩
      exact absurd htrue (by simp [S0Smartmeter.init, S0Pin.init, hpin])
    · intro _
      refine ⟨?_, ?_, ?_, ?_, ?_⟩ <;>
        simp [S0Smartmeter.init, S0Pin.init, hpin]

/-- Witness for C6: on the constructed channel, `init(3, "", 24, 1000)`
succeeds and derives `energyPerPulse = 3600`. -/
theorem spec_c6_witness :
    ((S0Smartmeter.construct 0 0).init 3 "" 24 1000).2.2 = true ∧
    ((S0Smartmeter.construct 0 0).init 3 "" 24 1000).1.m_energyPerPulse = 3600 := by
  have H := spec_c6_init_validation (S0Smartmeter.construct 0 0) 3 "" 24 1000
  have ht : ((S0Smartmeter.construct 0 0).init 3 "" 24 1000).2.2 = true :=
    H.1.mpr (by decide)
  exact ⟨ht, H.2.2.1 ⟨ht, rfl⟩⟩

/-- Claim C9: when the pin is valid (24..31) but the calibration is out of range,
`init` returns false and leaves id, name, calibration and energy per pulse
unchanged, yet the rejected pin has already been recorded in the `S0Pin`
(whose `getPortBitNo()` now reflects it) and the `pinMode(pin, INPUT_PULLUP)`
reconfiguration has already been issued. -/
theorem spec_c9_failed_init_still_records_pin (s : S0Smartmeter) (id : Nat)
    (name : String) (pinS0 ppk : Nat)
    (hpin : mcPinRangeMin ≤ pinS0 ∧ pinS0 ≤ mcPinRangeMax)
    (hppk : ppk < PULSES_PER_KWH_RANGE_MIN ∨ PULSES_PER_KWH_RANGE_MAX < ppk) :
    (s.init id name pinS0 ppk).2.2 = false ∧
    (s.init id name pinS0 ppk).1.m_id = s.m_id ∧
    (s.init id name pinS0 ppk).1.m_name = s.m_name ∧
    (s.init id name pinS0 ppk).1.m_pulsesPerKWH = s.m_pulsesPerKWH ∧
    (s.init id name pinS0 ppk).1.m_energyPerPulse = s.m_energyPerPulse ∧
    (s.init id name pinS0 ppk).1.m_s0Pin.m_pinNo = pinS0 ∧
    (s.init id name pinS0 ppk).1.m_s0Pin.getPortBitNo = pinS0 - mcPinRangeMin ∧
    (s.init id name pinS0 ppk).2.1 = [⟨pinS0, INPUT_PULLUP⟩] := by
  have hrange : ¬ (PULSES_PER_KWH_RANGE_MIN ≤ ppk ∧ ppk ≤ PULSES_PER_KWH_RANGE_MAX) := by
    rcases hppk with h | h
    · exact fun hc => absurd h (Nat.not_lt.mpr hc.1)
    · exact fun hc => absurd h (Nat.not_lt.mpr hc.2)
  have hbit : u8sub pinS0 mcPinRangeMin = pinS0 - mcPinRangeMin := by
    have h1 : 24 ≤ pinS0 := hpin.1
    have h2 : pinS0 ≤ 31 := hpin.2
    unfold u8sub U8 mcPinRangeMin
    omega
  refine ⟨?_, ?_, ?_, ?_, ?_, ?_, ?_, ?_⟩ <;>
    simp [S0Smartmeter.init, S0Pin.init, S0Pin.getPortBitNo, hpin, hrange, hbit]

/-- Witness for C9: pin 24 with out-of-range calibration 6001. -/
theorem spec_c9_witness :
    ((S0Smartmeter.construct 0 0).init 1 "" 24 6001).2.2 = false ∧
    ((S0Smartmeter.construct 0 0).init 1 "" 24 6001).1.m_s0Pin.m_pinNo = 24 := by
  have H := spec_c9_failed_init_still_records_pin (S0Smartmeter.construct 0 0) 1 "" 24 6001
    (by decide) (by decide)
  exact ⟨H.1, H.2.2.2.2.2.1⟩

/-- Claim C8: with a valid port A pin and an 8-bit `PCMSK0` value, `S0Pin::enable`
sets exactly this pin's mask bit and `S0Pin::disable` clears exactly it,
leaving every other bit unchanged; `S0Smartmeter::enable` / `disable` change
only that mask bit and the `m_isEnabled` flag — the runtime estimator state
is untouched (in particular it is not cleared on disable). -/
theorem spec_c8_mask_bit_isolation (s : S0Smartmeter) (pcmsk0 : Nat)
    (hpin : mcPinRangeMin ≤ s.m_s0Pin.m_pinNo ∧ s.m_s0Pin.m_pinNo ≤ mcPinRangeMax)
    (hreg : pcmsk0 < U8) :
    (s.m_s0Pin.enable pcmsk0).testBit (s.m_s0Pin.m_pinNo - mcPinRangeMin) = true ∧
    (∀ j, j ≠ s.m_s0Pin.m_pinNo - mcPinRangeMin →
      (s.m_s0Pin.enable pcmsk0).testBit j = pcmsk0.testBit j) ∧
    (s.m_s0Pin.disable pcmsk0).testBit (s.m_s0Pin.m_pinNo - mcPinRangeMin) = false ∧
    (∀ j, j ≠ s.m_s0Pin.m_pinNo - mcPinRangeMin →
      (s.m_s0Pin.disable pcmsk0).testBit j = pcmsk0.testBit j) ∧
    (s.enable pcmsk0).1 = { s with m_isEnabled := true } ∧
    (s.enable pcmsk0).2 = s.m_s0Pin.enable pcmsk0 ∧
    (s.disable pcmsk0).1 = { s with m_isEnabled := false } ∧
    (s.disable pcmsk0).2 = s.m_s0Pin.disable pcmsk0 := by
  have hb : s.m_s0Pin.m_pinNo - mcPinRangeMin < 8 := by
    have h1 : 24 ≤ s.m_s0Pin.m_pinNo := hpin.1
    have h2 : s.m_s0Pin.m_pinNo ≤ 31 := hpin.2
    unfold mcPinRangeMin
    omega
  have hu8 : u8sub s.m_s0Pin.m_pinNo mcPinRangeMin = s.m_s0Pin.m_pinNo - mcPinRangeMin := by
    have h1 : 24 ≤ s.m_s0Pin.m_pinNo := hpin.1
    have h2 : s.m_s0Pin.m_pinNo ≤ 31 := hpin.2
    unfold u8sub U8 mcPinRangeMin
    omega
  set b := s.m_s0Pin.m_pinNo - mcPinRangeMin with hbdef
  have hplt8 : (2 : Nat) ^ b < 2 ^ 8 := Nat.pow_lt_pow_right (by norm_num) hb
  have hplt : (2 : Nat) ^ b < 256 := by
    have h := hplt8
    norm_num at h
    exact h
  have hregp : pcmsk0 < 2 ^ 8 := by
    have hu : U8 = 2 ^ 8 := by norm_num [U8]
    omega
  have henv : s.m_s0Pin.enable pcmsk0 = pcmsk0 ||| 2 ^ b := by
    have hlt : pcmsk0 ||| 2 ^ b < U8 := by
      have h := Nat.or_lt_two_pow hregp hplt8
      norm_num [U8] at h ⊢
      exact h
    unfold S0Pin.enable
    rw [hu8, Nat.one_shiftLeft]
    exact Nat.mod_eq_of_lt hlt
  have hdisv : s.m_s0Pin.disable pcmsk0 = pcmsk0 &&& ((2 ^ 8 - 1) ^^^ 2 ^ b) := by
    have hlt : (2 : Nat) ^ b < U8 := by
      norm_num [U8]
      exact hplt
    unfold S0Pin.disable
    rw [hu8, Nat.one_shiftLeft, Nat.mod_eq_of_lt hlt]
    norm_num [U8]
  refine ⟨?_, ?_, ?_, ?_, rfl, rfl, rfl, rfl⟩
  · rw [henv, Nat.testBit_or, Nat.testBit_two_pow_self, Bool.or_true]
  · intro j hj
    rw [henv, Nat.testBit_or, Nat.testBit_two_pow_of_ne (fun h => hj h.symm), Bool.or_false]
  · rw [hdisv, Nat.testBit_and, Nat.testBit_xor, Nat.testBit_two_pow_sub_one,
      Nat.testBit_two_pow_self, decide_eq_true hb]
    simp
  · intro j hj
    rw [hdisv, Nat.testBit_and, Nat.testBit_xor, Nat.testBit_two_pow_sub_one,
      Nat.testBit_two_pow_of_ne (fun h => hj h.symm)]
    by_cases hj8 : j < 8
    · simp [hj8]
    · have hz : pcmsk0.testBit j = false :=
        Nat.testBit_lt_two_pow (lt_of_lt_of_le hregp (Nat.pow_le_pow_right (by norm_num) (by omega)))
      simp [hj8, hz]

/-- Witness for C8: `c1Meter` (pin 24, port bit 0) with `PCMSK0 = 170`. -/
theorem spec_c8_witness :
    ((c1Meter.m_s0Pin.enable 170).testBit (c1Meter.m_s0Pin.m_pinNo - mcPinRangeMin) = true) ∧
    ((c1Meter.m_s0Pin.disable 170).testBit (c1Meter.m_s0Pin.m_pinNo - mcPinRangeMin) = false) := by
  have H := spec_c8_mask_bit_isolation c1Meter 170 (by decide) (by decide)
  exact ⟨H.1, H.2.2.1⟩

/-- One successful `process` call never increases the power estimate, and
strictly decreases it whenever the decreasing branch fires. -/
theorem process_power_decreasing (s s' : S0Smartmeter) (now : Nat)
    (h : s.process now = some s') :
    s'.m_powerConsumption + (if fires s now then 1 else 0) ≤ s.m_powerConsumption := by
  by_cases h1 : s.m_isEnabled = true ∧ s.m_isFirstPulse = false
  · by_cases h2 : 0 < s.m_powerConsumption
    · by_cases h3 : s.m_decPowerDuration ≤ u32sub now s.m_timestamp
      · by_cases h4 : s.m_decPowerDuration = 0
        · exfalso
          have hp : s.process now = none := by
            simp [S0Smartmeter.process, h1.1, h1.2, h2, h3, h4]
          rw [hp] at h
          exact Option.noConfusion h
        · have hf : fires s now := ⟨h1.1, h1.2, h2, h3⟩
          rw [if_pos hf]
          by_cases h5 : 1 ≥ ((s.m_energyPerPulse * 1000) % U32) / s.m_decPowerDuration
          · have hp : s.process now = some { s with m_powerConsumption := 0, m_decPowerDuration := (s.m_decPowerDuration * 2) % U32 } := by
              simp [S0Smartmeter.process, h1.1, h1.2, h2, h3, h4, h5]
            rw [hp] at h
            obtain rfl := Option.some.inj h
            simpa using h2
          · by_cases h6 : ((s.m_energyPerPulse * 1000) % U32) / s.m_decPowerDuration ≥ s.m_powerConsumption
            · have hp : s.process now = some { s with m_powerConsumption := 0, m_decPowerDuration := (s.m_decPowerDuration * 2) % U32 } := by
                simp [S0Smartmeter.process, h1.1, h1.2, h2, h3, h4, h5, h6]
              rw [hp] at h
              obtain rfl := Option.some.inj h
              simpa using h2
            · have hp : s.process now = some { s with m_powerConsumption := s.m_powerConsumption - ((s.m_energyPerPulse * 1000) % U32) / s.m_decPowerDuration, m_decPowerDuration := (s.m_decPowerDuration * 2) % U32 } := by
                simp [S0Smartmeter.process, h1.1, h1.2, h2, h3, h4, h5, h6]
              rw [hp] at h
              obtain rfl := Option.some.inj h
              simp only []
              omega
      · have hf : ¬ fires s now := fun hf => h3 hf.2.2.2
        have hp : s.process now = some s := by
          simp [S0Smartmeter.process, h1.1, h1.2, h2, h3]
        rw [hp] at h
        obtain rfl := Option.some.inj h
        rw [if_neg hf]
        omega
    · have hf : ¬ fires s now := fun hf => h2 hf.2.2.1
      have hp : s.process now = some s := by
        simp [S0Smartmeter.process, h1.1, h1.2, h2]
      rw [hp] at h
      obtain rfl := Option.some.inj h
      rw [if_neg hf]
      omega
  · have hf : ¬ fires s now := fun hf => h1 ⟨hf.1, hf.2.1⟩
    have hp : s.process now = some s := by
      simp [S0Smartmeter.process, h1]
    rw [hp] at h
    obtain rfl := Option.some.inj h
    rw [if_neg hf]
    omega

/-- Claim C7 as amended: along any fault-free run of `process` calls (no zero
decay interval is ever divided by), the power estimate never increases, at
most `powerEstimate`-many calls can take the decreasing branch, and once
`k` decreasing steps have occurred with `k` at least the initial estimate
the estimate is exactly 0; all three monitored quantities are naturals and
hence never negative. -/
theorem spec_c7_decay_monotone_bounded (s s' : S0Smartmeter) (ts : List Nat) (k : Nat)
    (h : runCount s ts = some (s', k)) :
    s'.m_powerConsumption + k ≤ s.m_powerConsumption := by
  induction ts generalizing s k with
  | nil =>
    simp [runCount] at h
    obtain ⟨rfl, rfl⟩ := h
    simp
  | cons now rest ih =>
    simp only [runCount] at h
    split at h
    · simp at h
    · next s1 hp =>
      split at h
      · simp at h
      · next s2 k2 hr =>
        simp only [Option.some.injEq, Prod.mk.injEq] at h
        obtain ⟨rfl, rfl⟩ := h
        have step := process_power_decreasing s s1 now hp
        have tail := ih s1 k2 hr
        by_cases hf : fires s now
        · rw [if_pos hf] at step ⊢
          omega
        · rw [if_neg hf] at step ⊢
          omega

/-- Witness for C7: the amended theorem applied to the one-step run of
`c7Meter` at time 100000 ms (one firing step, power 5 drops to 0). -/
theorem spec_c7_witness :
    c7After.m_powerConsumption + 1 ≤ c7Meter.m_powerConsumption :=
  spec_c7_decay_monotone_bounded c7Meter c7After [100000] 1 (by decide)

/-- Claim C7 counterexample: on a channel state with positive power and a zero
decay interval, the decay operation divides by zero (`none`) instead of
monotonically driving the estimate to 0; the claim's quantification over
every channel state therefore fails. -/
theorem spec_c7_zero_interval_decay_faults :
    0 < c7zMeter.m_powerConsumption ∧ runCount c7zMeter [5] = none :=
  ⟨by decide, rfl⟩

/-- Element-wise characterization of a successful dispatcher loop: the
result has the same length and its `i`-th slot is exactly the result of
`dispatchOne` on the `i`-th input channel. -/
theorem dispatchChannels_spec (now lv v : Nat) (cs cs' : List S0Smartmeter)
    (h : dispatchChannels now lv v cs = some cs') :
    cs'.length = cs.length ∧
    ∀ (i : Nat) (c : S0Smartmeter), cs[i]? = some c → cs'[i]? = dispatchOne now lv v c := by
  induction cs generalizing cs' with
  | nil =>
    simp only [dispatchChannels, Option.some.injEq] at h
    subst h
    simp
  | cons c cs ih =>
    simp only [dispatchChannels] at h
    split at h
    · simp at h
    · next c' hc =>
      split at h
      · simp at h
      · next cs1 hcs =>
        simp only [Option.some.injEq] at h
        subst h
        obtain ⟨hlen, hget⟩ := ih cs1 hcs
        refine ⟨by simp [hlen], ?_⟩
        intro i d hd
        cases i with
        | zero =>
          simp only [List.getElem?_cons_zero, Option.some.injEq] at hd
          subst hd
          simpa using hc.symm
        | succ n =>
          simp only [List.getElem?_cons_succ] at hd ⊢
          exact hget n d hd

/-- Claim C5: one invocation of `ISR(PCINT0_vect)` on patterns `(lastValue, value)`
forwards `internalISR` exactly to the enabled channels whose port bit shows
a 1-to-0 transition between the two patterns; a channel with no falling
edge on its bit, or a disabled channel, is left untouched; and the stored
last-observed pattern becomes `value`. -/
theorem spec_c5_dispatcher_attribution (now lastValue value : Nat)
    (cs cs' : List S0Smartmeter) (lv' : Nat)
    (h : ISR_PCINT0 now lastValue value cs = some (cs', lv')) :
    lv' = value ∧ cs'.length = cs.length ∧
    ∀ (i : Nat) (c : S0Smartmeter), cs[i]? = some c →
      (receivesPulse lastValue value c → cs'[i]? = c.internalISR now) ∧
      (¬ receivesPulse lastValue value c → cs'[i]? = some c) := by
  unfold ISR_PCINT0 at h
  split at h
  · simp at h
  · next cs1 hc =>
    simp only [Option.some.injEq, Prod.mk.injEq] at h
    obtain ⟨rfl, rfl⟩ := h
    obtain ⟨hlen, hget⟩ := dispatchChannels_spec now lastValue value cs cs1 hc
    refine ⟨rfl, hlen, ?_⟩
    intro i c hic
    refine ⟨fun hr => ?_, fun hr => ?_⟩
    · rw [hget i c hic]
      simp [dispatchOne, hr]
    · rw [hget i c hic]
      simp [dispatchOne, hr]

/-- Witness for C5: with a falling edge only on port bit 0, the enabled
bit-0 channel receives the `internalISR` call and the disabled channel is
untouched. -/
theorem spec_c5_witness :
    c5Out[0]? = c5A.internalISR 5 ∧ c5Out[1]? = some c5B := by
  have H := spec_c5_dispatcher_attribution 5 1 0 [c5A, c5B] c5Out 0 (by decide)
  exact ⟨(H.2.2 0 c5A (by decide)).1 (by decide), (H.2.2 1 c5B (by decide)).2 (by decide)⟩

/-- Claim C10: the dispatcher's last-observed pattern starts at `0xff`, so on the
very first invocation after startup every enabled channel (pin 24..31,
still awaiting its first pulse) whose port bit currently reads 0 is
attributed a pulse: its slot is updated by `internalISR`, which increments
the pulse count and records the timestamp. -/
theorem spec_c10_first_invocation_attributes_pulses (now value : Nat)
    (cs cs' : List S0Smartmeter) (lv' : Nat)
    (h : ISR_PCINT0 now initialLastValue value cs = some (cs', lv'))
    (i : Nat) (c : S0Smartmeter) (hic : cs[i]? = some c)
    (hen : c.m_isEnabled = true)
    (hpin : mcPinRangeMin ≤ c.m_s0Pin.m_pinNo ∧ c.m_s0Pin.m_pinNo ≤ mcPinRangeMax)
    (hbit : value &&& (1 <<< c.m_s0Pin.getPortBitNo) = 0)
    (hfp : c.m_isFirstPulse = true) :
    cs'[i]? = some { c with m_pulseCnt := (c.m_pulseCnt + 1) % U32, m_timestamp := now } := by
  have hb : c.m_s0Pin.getPortBitNo < 8 := by
    have h1 : 24 ≤ c.m_s0Pin.m_pinNo := hpin.1
    have h2 : c.m_s0Pin.m_pinNo ≤ 31 := hpin.2
    unfold S0Pin.getPortBitNo u8sub U8 mcPinRangeMin
    omega
  have hmask : initialLastValue &&& (1 <<< c.m_s0Pin.getPortBitNo) ≠ 0 := by
    set b := c.m_s0Pin.getPortBitNo with hbdef
    interval_cases b <;> decide
  have hr : receivesPulse initialLastValue value c := ⟨hen, hmask, hbit⟩
  unfold ISR_PCINT0 at h
  split at h
  · simp at h
  · next cs1 hc =>
    simp only [Option.some.injEq, Prod.mk.injEq] at h
    obtain ⟨rfl, rfl⟩ := h
    obtain ⟨-, hget⟩ := dispatchChannels_spec now initialLastValue value cs cs1 hc
    rw [hget i c hic]
    simp [dispatchOne, hr, S0Smartmeter.internalISR, hfp]

/-- Witness for C10: the enabled pin-24 channel with port bit 0 reading 0 is
attributed a pulse on the first invocation. -/
theorem spec_c10_witness :
    c10Out[0]? =
      some { c1Meter with m_pulseCnt := (c1Meter.m_pulseCnt + 1) % U32, m_timestamp := 9 } :=
  spec_c10_first_invocation_attributes_pulses 9 0 [c1Meter] c10Out 0 (by decide)
    0 c1Meter rfl rfl (by decide) (by decide) rfl

end AvrSmartmeter
